import Mathlib

/-!
Verification of the filter-and-aggregate pipeline of `src/dashboard.py`
(InternorgaDashboard).

A pandas cell is modelled as `Option String`: `none` stands for a missing
value (NaN), `some s` for a textual cell.  A dataframe row is a `Record`
with the columns the pipeline touches; a `Dataset` is the ordered list of
rows.  The sidebar state (five multiselects plus the search box) is a
`FilterSpec`.  Python truthiness of a list (`if selected_scoring:`) is the
list being non-empty; truthiness of a string is the string being non-empty.
`pandas.Series.isin` on a missing cell is `False` when the candidate list
holds only strings; `astype(str)` renders a missing cell as the text
`"nan"`; `Series.value_counts()` drops missing values.

`Series.str.contains(term, case=False)` interprets the term as a regular
expression handed to Python's `re` module.  Two aspects of that are
modelled: (1) for a term free of regex metacharacters, regex matching
coincides with literal case-insensitive substring containment, which is
what `containsCI` computes — every theorem about which rows the search
admits is stated only for such terms; (2) `re.compile` rejects malformed
patterns (an unescaped unmatched parenthesis, an unterminated character
class, a trailing backslash) with `re.error`, which `reScan` checks and
the fallible pipeline `df_filteredE` surfaces as an error result.  Regex
match semantics for metacharacter patterns, and `re.error` cases beyond
the three above (such as a misplaced quantifier), are outside the
modelled fragment and no theorem relies on them.
-/

namespace Dashboard

/-- One dataframe row, with the columns `dashboard.py` reads. -/
structure Record where
  scoring : Option String
  vertikal : Option String
  followUp : Option String
  rep : Option String
  eventOutcome : Option String
  firma : Option String
  vorname : Option String
  nachname : Option String
deriving Repr, DecidableEq

/-- A dataframe: ordered rows, source order preserved. -/
abbrev Dataset := List Record

/-- Sidebar state: five multiselect value lists plus the search box text. -/
structure FilterSpec where
  selectedScoring : List String
  selectedVertikal : List String
  selectedFollowUp : List String
  selectedRep : List String
  selectedOutcome : List String
  searchTerm : String
deriving Repr, DecidableEq

/-- `df['Scoring'].fillna('Unscored').replace(['/', ''], 'Unscored')` applied
to one cell (dashboard.py line 23). -/
def cleanScoring (v : Option String) : Option String :=
  match v with
  | none => some "Unscored"
  | some s => if s = "/" ∨ s = "" then some "Unscored" else some s

/-- The data-cleaning part of `load_data` (dashboard.py lines 19-26) on a
dataset whose tabular content contains the `Scoring` column. -/
def load_data (rows : Dataset) : Dataset :=
  rows.map (fun r => { r with scoring := cleanScoring r.scoring })

/-- `series.isin(sel)` for one cell: a missing cell is in no list of
strings; a present cell is in the list iff its text is. -/
def isinSel (v : Option String) (sel : List String) : Bool :=
  match v with
  | none => false
  | some s => sel.contains s

/-- One multiselect filter stage (dashboard.py lines 61-70):
`if selected: df_filtered = df_filtered[df_filtered[col].isin(selected)]`.
An empty selection list is falsy in Python, so the stage is skipped. -/
def filterDim (get : Record → Option String) (sel : List String)
    (rows : Dataset) : Dataset :=
  if sel.isEmpty then rows else rows.filter (fun r => isinSel (get r) sel)

/-- `astype(str)` on one cell: a missing value renders as the text "nan". -/
def cellStr (v : Option String) : String :=
  match v with
  | none => "nan"
  | some s => s

/-- Lowercasing a string at the character level (`case=False`). -/
def strLower (s : String) : List Char :=
  s.toList.map Char.toLower

/-- `hay.str.contains(pat, case=False)` for one cell, on the regex-free
fragment: when `pat` holds no regex metacharacter, `re` matches it exactly
where it occurs literally, so matching is case-insensitive substring
containment.  Theorems about search admission use this definition only
under a `regexFree` hypothesis (or at concrete regex-free patterns). -/
def containsCI (hay pat : String) : Bool :=
  decide (strLower pat <:+: strLower hay)

/-- The characters `re` treats specially (Python's
`re.escape`-relevant set used by this development). -/
def reMeta (c : Char) : Bool :=
  c == '.' || c == '^' || c == '$' || c == '*' || c == '+' || c == '?' ||
    c == '{' || c == '}' || c == '[' || c == ']' || c == '\\' || c == '|' ||
    c == '(' || c == ')'

/-- A search term free of regex metacharacters: on these, `str.contains`
is literal substring matching and `re.compile` always succeeds. -/
def regexFree (t : String) : Bool :=
  t.toList.all (fun c => !reMeta c)

/-- Modelled from the behavior of Python `re.compile`, to which pandas
delegates the search term: the scan accepts a pattern unless it has an
unescaped unmatched parenthesis, an unterminated character class, or a
trailing backslash — the `re.error` cases this development reasons about.
`depth` counts open groups; `inClass` is set inside `[...]`, where
parentheses are literals.  Other `re.error` causes (e.g. a quantifier with
nothing to repeat) are not modelled and no theorem relies on the scan's
value for such patterns. -/
def reScan (l : List Char) (depth : Nat) (inClass : Bool) : Bool :=
  match l with
  | [] => !inClass && depth == 0
  | c :: rest =>
    if c = '\\' then
      match rest with
      | [] => false
      | _ :: rest2 => reScan rest2 depth inClass
    else if inClass then
      if c = ']' then reScan rest depth false
      else reScan rest depth true
    else if c = '[' then reScan rest depth true
    else if c = '(' then reScan rest (depth + 1) false
    else if c = ')' then
      match depth with
      | 0 => false
      | d + 1 => reScan rest d false
    else reScan rest depth false

/-- Whether `re.compile` accepts the search term (on the modelled
fragment). -/
def reCompiles (t : String) : Bool :=
  reScan t.toList 0 false

/-- `search_condition` for one row (dashboard.py lines 75-79): the three
name columns are coerced with `astype(str)` and matched case-insensitively,
joined by `|`. -/
def searchMatch (term : String) (r : Record) : Bool :=
  containsCI (cellStr r.firma) term || containsCI (cellStr r.vorname) term ||
    containsCI (cellStr r.nachname) term

/-- The text-search stage (dashboard.py lines 73-80):
`if search_term: df_filtered = df_filtered[search_condition]`.
An empty search string is falsy, so the stage is skipped. -/
def applySearch (term : String) (rows : Dataset) : Dataset :=
  if term.isEmpty then rows else rows.filter (searchMatch term)

/-- `df_filtered` (dashboard.py lines 58-80): the five multiselect stages in
source order, then the text search. -/
def df_filtered (df : Dataset) (F : FilterSpec) : Dataset :=
  applySearch F.searchTerm
    (filterDim (fun r => r.eventOutcome) F.selectedOutcome
      (filterDim (fun r => r.rep) F.selectedRep
        (filterDim (fun r => r.followUp) F.selectedFollowUp
          (filterDim (fun r => r.vertikal) F.selectedVertikal
            (filterDim (fun r => r.scoring) F.selectedScoring df)))))

/-- The text-search stage with its regex-compilation error path explicit
(dashboard.py lines 73-80): an empty search string skips the stage; a
non-empty one is compiled by `re` before any row is examined, so a
malformed term is an error regardless of the data; a term that compiles
filters by `search_condition`. -/
def searchStageE (term : String) (rows : Dataset) : Except String Dataset :=
  if term.isEmpty then Except.ok rows
  else if reCompiles term then Except.ok (rows.filter (searchMatch term))
  else Except.error "re.error"

/-- `df_filtered` (dashboard.py lines 58-80) with the search stage's
`re.error` path surfaced as an error result instead of an uncaught
exception: the five multiselect stages cannot fail, the text search
can. -/
def df_filteredE (df : Dataset) (F : FilterSpec) : Except String Dataset :=
  searchStageE F.searchTerm
    (filterDim (fun r => r.eventOutcome) F.selectedOutcome
      (filterDim (fun r => r.rep) F.selectedRep
        (filterDim (fun r => r.followUp) F.selectedFollowUp
          (filterDim (fun r => r.vertikal) F.selectedVertikal
            (filterDim (fun r => r.scoring) F.selectedScoring df)))))

/-- Lexicographic code-point order on character lists, as Python compares
strings. -/
def lexLe : List Char → List Char → Bool
  | [], _ => true
  | _ :: _, [] => false
  | a :: as, b :: bs =>
    if a.toNat < b.toNat then true
    else if b.toNat < a.toNat then false
    else lexLe as bs

/-- String comparison for `sorted`. -/
def strLe (a b : String) : Bool :=
  lexLe a.toList b.toList

/-- Insert a string into a sorted list, keeping it sorted. -/
def orderedInsertStr (a : String) : List String → List String
  | [] => [a]
  | b :: bs => if strLe a b then a :: b :: bs else b :: orderedInsertStr a bs

/-- Python `sorted` on a list of strings, as insertion sort. -/
def sortStrings : List String → List String
  | [] => []
  | a :: as => orderedInsertStr a (sortStrings as)

/-- `sorted(df[col].dropna().unique())` (dashboard.py lines 41-45): the
distinct present values of a column, sorted.  `dropna` is `filterMap`,
`unique` is `dedup`, `sorted` is insertion sort on code-point order. -/
def dimOptions (get : Record → Option String) (df : Dataset) : List String :=
  sortStrings ((df.filterMap get).dedup)

/-- The default sidebar state (dashboard.py lines 48-55): every
multiselect defaults to the full option list of its column, and the search
box is empty. -/
def fullSelection (df : Dataset) : FilterSpec :=
  { selectedScoring := dimOptions (fun r => r.scoring) df
    selectedVertikal := dimOptions (fun r => r.vertikal) df
    selectedFollowUp := dimOptions (fun r => r.followUp) df
    selectedRep := dimOptions (fun r => r.rep) df
    selectedOutcome := dimOptions (fun r => r.eventOutcome) df
    searchTerm := "" }

/-- `total_leads = df_filtered.shape[0]` (dashboard.py line 95). -/
def total_leads (rows : Dataset) : Nat := rows.length

/-- Rows whose `Scoring` cell equals the given tier
(`df_filtered[df_filtered['Scoring'] == t].shape[0]`; a missing cell never
equals a string). -/
def countScoring (rows : Dataset) (t : String) : Nat :=
  (rows.filter (fun r => r.scoring == some t)).length

/-- `leads_a` (dashboard.py line 97), including the redundant
`if 'A' in df_filtered['Scoring'].values else 0` guard. -/
def leads_a (rows : Dataset) : Nat :=
  if (some "A") ∈ rows.map (fun r => r.scoring) then countScoring rows "A" else 0

/-- `leads_b` (dashboard.py line 98). -/
def leads_b (rows : Dataset) : Nat :=
  if (some "B") ∈ rows.map (fun r => r.scoring) then countScoring rows "B" else 0

/-- `leads_c` (dashboard.py line 99). -/
def leads_c (rows : Dataset) : Nat :=
  if (some "C") ∈ rows.map (fun r => r.scoring) then countScoring rows "C" else 0

/-- `leads_unscored` (dashboard.py line 100). -/
def leads_unscored (rows : Dataset) : Nat :=
  if (some "Unscored") ∈ rows.map (fun r => r.scoring) then
    countScoring rows "Unscored" else 0

/-- `df_filtered[col].value_counts()` (dashboard.py lines 118, 127, 142,
150): count per distinct present value; missing cells are dropped. -/
def value_counts (get : Record → Option String) (rows : Dataset) :
    List (String × Nat) :=
  ((rows.filterMap get).dedup).map (fun v => (v, (rows.filterMap get).count v))

/-! ### Sample data used by concrete counterexamples and witnesses -/

/-- A fully populated lead. -/
def sampleLead : Record :=
  ⟨some "A", some "Tech", some "Yes", some "Alice", some "Demo",
   some "ACME", some "John", some "Doe"⟩

/-- A lead whose `Vertikal` cell is missing, all other cells present. -/
def sampleLeadNoVert : Record :=
  ⟨some "B", none, some "Yes", some "Alice", some "Demo",
   some "Beta", some "Jane", some "Roe"⟩

/-- A lead whose three name cells (`Firma`, `Vorname`, `Nachname`) are all
missing. -/
def sampleLeadNoNames : Record :=
  ⟨some "A", some "Tech", some "Yes", some "Alice", some "Demo",
   none, none, none⟩

/-- A lead whose raw `Scoring` cell is the placeholder "/". -/
def sampleLeadSlash : Record :=
  ⟨some "/", some "Tech", some "Yes", some "Alice", some "Demo",
   some "ACME", some "John", some "Doe"⟩

/-- `sampleLeadSlash` after the loader's cleaning step. -/
def sampleLeadSlashClean : Record :=
  ⟨some "Unscored", some "Tech", some "Yes", some "Alice", some "Demo",
   some "ACME", some "John", some "Doe"⟩

/-- Sidebar state with an explicitly empty `Vertikal` selection and
non-empty selections on the other four dimensions (matching
`sampleLead`). -/
def specEmptyVert : FilterSpec :=
  ⟨["A"], [], ["Yes"], ["Alice"], ["Demo"], ""⟩

/-- Sidebar state with every multiselect cleared and search text "nan". -/
def specSearchNan : FilterSpec :=
  ⟨[], [], [], [], [], "nan"⟩

/-- Sidebar state with every multiselect cleared and no search text. -/
def specAllEmpty : FilterSpec :=
  ⟨[], [], [], [], [], ""⟩

/-- Sidebar state whose `Scoring` selection matches no sample lead. -/
def specNoMatch : FilterSpec :=
  ⟨["Z"], [], [], [], [], ""⟩

/-- Sidebar state whose search text "(" is a malformed regular expression
(`re.compile` fails on an unmatched parenthesis). -/
def specBadRegex : FilterSpec :=
  ⟨[], [], [], [], [], "("⟩

/-! ### Helper lemmas -/

theorem filterDim_sublist (get : Record → Option String) (sel : List String)
    (rows : Dataset) : List.Sublist (filterDim get sel rows) rows := by
  unfold filterDim
  split
  · exact List.Sublist.refl rows
  · exact List.filter_sublist rows

theorem applySearch_sublist (term : String) (rows : Dataset) :
    List.Sublist (applySearch term rows) rows := by
  unfold applySearch
  split
  · exact List.Sublist.refl rows
  · exact List.filter_sublist rows

theorem df_filtered_sublist (df : Dataset) (F : FilterSpec) :
    List.Sublist (df_filtered df F) df := by
  unfold df_filtered
  exact (((((applySearch_sublist _ _).trans
    (filterDim_sublist _ _ _)).trans
      (filterDim_sublist _ _ _)).trans
        (filterDim_sublist _ _ _)).trans
          (filterDim_sublist _ _ _)).trans
            (filterDim_sublist _ _ _)

theorem cleanScoring_ok (v : Option String) :
    ∃ s, cleanScoring v = some s ∧ s ≠ "" ∧ s ≠ "/" := by
  cases v with
  | none => exact ⟨"Unscored", rfl, by decide, by decide⟩
  | some s =>
    by_cases h : s = "/" ∨ s = ""
    · refine ⟨"Unscored", ?_, by decide, by decide⟩
      simp [cleanScoring, h]
    · refine ⟨s, ?_, fun he => h (Or.inr he), fun hs => h (Or.inl hs)⟩
      simp [cleanScoring, h]

theorem cleanScoring_idem (v : Option String) :
    cleanScoring (cleanScoring v) = cleanScoring v := by
  obtain ⟨s, hs, he, hsl⟩ := cleanScoring_ok v
  rw [hs]
  simp [cleanScoring, he, hsl]

theorem mem_orderedInsertStr {x a : String} {l : List String} :
    x ∈ orderedInsertStr a l ↔ x = a ∨ x ∈ l := by
  induction l with
  | nil => simp [orderedInsertStr]
  | cons b bs ih =>
    unfold orderedInsertStr
    split
    · simp [List.mem_cons]
    · simp only [List.mem_cons, ih]
      tauto

theorem mem_sortStrings {x : String} {l : List String} :
    x ∈ sortStrings l ↔ x ∈ l := by
  induction l with
  | nil => simp [sortStrings]
  | cons a as ih => simp [sortStrings, mem_orderedInsertStr, ih]

theorem mem_dimOptions {v : String} (get : Record → Option String)
    {D : Dataset} {r : Record} (hr : r ∈ D) (hv : get r = some v) :
    v ∈ dimOptions get D := by
  unfold dimOptions
  rw [mem_sortStrings, List.mem_dedup]
  exact List.mem_filterMap.mpr ⟨r, hr, hv⟩

theorem filterDim_all_mem (get : Record → Option String) (sel : List String)
    (rows : Dataset) (h : ∀ r ∈ rows, isinSel (get r) sel = true) :
    filterDim get sel rows = rows := by
  unfold filterDim
  split
  · rfl
  · exact List.filter_eq_self.mpr h

theorem reScan_of_all_nonmeta (l : List Char)
    (h : ∀ c ∈ l, reMeta c = false) : reScan l 0 false = true := by
  induction l with
  | nil => rfl
  | cons c rest ih =>
    have hc := h c (List.mem_cons_self c rest)
    have hbs : ¬ c = '\\' := by
      intro he
      subst he
      simp [reMeta] at hc
    have hbr : ¬ c = '[' := by
      intro he
      subst he
      simp [reMeta] at hc
    have hop : ¬ c = '(' := by
      intro he
      subst he
      simp [reMeta] at hc
    have hcl : ¬ c = ')' := by
      intro he
      subst he
      simp [reMeta] at hc
    rw [reScan.eq_def]
    simp only [if_neg hbs, if_neg hbr, if_neg hop, if_neg hcl,
      Bool.false_eq_true, if_false]
    exact ih (fun d hd => h d (List.mem_cons_of_mem c hd))

theorem reCompiles_of_regexFree (t : String) (h : regexFree t = true) :
    reCompiles t = true := by
  unfold reCompiles
  apply reScan_of_all_nonmeta
  intro c hcmem
  simp only [regexFree, List.all_eq_true] at h
  simpa using h c hcmem

theorem searchStageE_ok (term : String) (rows : Dataset)
    (h : term = "" ∨ regexFree term = true) :
    searchStageE term rows = Except.ok (applySearch term rows) := by
  rcases h with h | h
  · subst h
    rfl
  · by_cases he : term.isEmpty
    · simp [searchStageE, applySearch, he]
    · simp [searchStageE, applySearch, he, reCompiles_of_regexFree term h]

theorem filterDim_fullOptions (get : Record → Option String) (D : Dataset)
    (h : ∀ r ∈ D, (get r).isSome) :
    filterDim get (dimOptions get D) D = D := by
  apply filterDim_all_mem
  intro r hr
  obtain ⟨v, hv⟩ := Option.isSome_iff_exists.mp (h r hr)
  rw [hv]
  show (dimOptions get D).contains v = true
  simpa using mem_dimOptions get hr hv

/-! ### Claim theorems -/

/-- C1 counterexample: a FilterSpec with an explicitly empty `Vertikal`
selection and non-empty selections on the other four dimensions yields a
FilteredView of length 1 on a one-record Dataset, not length 0 as the claim
states. -/
theorem c1_counterexample :
    specEmptyVert.selectedVertikal = [] ∧
    specEmptyVert.selectedScoring ≠ [] ∧
    specEmptyVert.selectedFollowUp ≠ [] ∧
    specEmptyVert.selectedRep ≠ [] ∧
    specEmptyVert.selectedOutcome ≠ [] ∧
    (df_filtered [sampleLead] specEmptyVert).length = 1 := by
  decide

/-- C1 (amended): an explicitly empty selection list for the `Vertikal`
dimension applies no filter on that dimension — `df_filtered` equals the
pipeline with the `Vertikal` stage removed, because the Python truthiness
test `if selected_vertikal:` skips the stage for an empty list. -/
theorem c1_empty_selection_skips_stage (D : Dataset) (F : FilterSpec)
    (h : F.selectedVertikal = []) :
    df_filtered D F =
      applySearch F.searchTerm
        (filterDim (fun r => r.eventOutcome) F.selectedOutcome
          (filterDim (fun r => r.rep) F.selectedRep
            (filterDim (fun r => r.followUp) F.selectedFollowUp
              (filterDim (fun r => r.scoring) F.selectedScoring D)))) := by
  unfold df_filtered
  rw [h]
  rfl

theorem c1_empty_selection_skips_stage_witness :
    df_filtered [sampleLead] specEmptyVert =
      applySearch specEmptyVert.searchTerm
        (filterDim (fun r => r.eventOutcome) specEmptyVert.selectedOutcome
          (filterDim (fun r => r.rep) specEmptyVert.selectedRep
            (filterDim (fun r => r.followUp) specEmptyVert.selectedFollowUp
              (filterDim (fun r => r.scoring) specEmptyVert.selectedScoring
                [sampleLead])))) :=
  c1_empty_selection_skips_stage [sampleLead] specEmptyVert rfl

/-- C5: after `load_data` no record's `Scoring` cell is missing, empty, or
the literal "/" — each such value has become the sentinel "Unscored" — and
the cleaning is idempotent. -/
theorem c5_sentinel_invariant (rows : Dataset) :
    (∀ r ∈ load_data rows, ∃ s, r.scoring = some s ∧ s ≠ "" ∧ s ≠ "/") ∧
    load_data (load_data rows) = load_data rows := by
  constructor
  · intro r hr
    rw [load_data, List.mem_map] at hr
    obtain ⟨r0, _, hr0⟩ := hr
    subst hr0
    simpa using cleanScoring_ok r0.scoring
  · rw [load_data, load_data, List.map_map]
    apply List.map_congr_left
    intro a _
    simp [Function.comp, cleanScoring_idem]

theorem c5_sentinel_invariant_witness :
    (∃ s, sampleLeadSlashClean.scoring = some s ∧ s ≠ "" ∧ s ≠ "/") ∧
    load_data (load_data [sampleLeadSlash]) = load_data [sampleLeadSlash] :=
  ⟨(c5_sentinel_invariant [sampleLeadSlash]).1 sampleLeadSlashClean (by decide),
   (c5_sentinel_invariant [sampleLeadSlash]).2⟩

/-- C6: the FilteredView is a sublist of the Dataset — it is never longer,
every record in it occurs in the Dataset, and relative order is
preserved. -/
theorem c6_filtered_view_sublist (D : Dataset) (F : FilterSpec) :
    List.Sublist (df_filtered D F) D ∧
    (df_filtered D F).length ≤ D.length ∧
    ∀ r ∈ df_filtered D F, r ∈ D := by
  refine ⟨df_filtered_sublist D F, (df_filtered_sublist D F).length_le, ?_⟩
  intro r hr
  exact (df_filtered_sublist D F).subset hr

/-- C2 counterexample: under the default full selection computed from the
Dataset itself, a record whose `Vertikal` cell is missing is dropped
(because `dropna().unique()` omits NaN from the option list and `isin`
rejects a missing cell), so the FilteredView is not equal to the
Dataset. -/
theorem c2_counterexample :
    df_filtered [sampleLead, sampleLeadNoVert]
        (fullSelection [sampleLead, sampleLeadNoVert]) ≠
      [sampleLead, sampleLeadNoVert] := by
  decide

/-- C2 (amended): for a Dataset in which every record has a present value
on all five categorical dimensions, applying the Engine with the full
selection (every dimension's complete distinct-value list, empty search)
returns the Dataset unchanged, in content and order. -/
theorem c2_full_selection_identity (D : Dataset)
    (h : ∀ r ∈ D, (r.scoring).isSome ∧ (r.vertikal).isSome ∧
      (r.followUp).isSome ∧ (r.rep).isSome ∧ (r.eventOutcome).isSome) :
    df_filtered D (fullSelection D) = D := by
  simp only [df_filtered, fullSelection]
  rw [filterDim_fullOptions (fun r => r.scoring) D (fun r hr => (h r hr).1),
    filterDim_fullOptions (fun r => r.vertikal) D (fun r hr => (h r hr).2.1),
    filterDim_fullOptions (fun r => r.followUp) D
      (fun r hr => (h r hr).2.2.1),
    filterDim_fullOptions (fun r => r.rep) D (fun r hr => (h r hr).2.2.2.1),
    filterDim_fullOptions (fun r => r.eventOutcome) D
      (fun r hr => (h r hr).2.2.2.2)]
  rfl

theorem c2_full_selection_identity_witness :
    df_filtered [sampleLead] (fullSelection [sampleLead]) = [sampleLead] :=
  c2_full_selection_identity [sampleLead] (by decide)

/-- C3 counterexample: a record whose three name cells are all missing
passes the text search for the pattern "nan" (the cells are coerced to the
text "nan" by `astype(str)`), while the claim says a missing field never
matches, which would exclude this record. -/
theorem c3_counterexample :
    sampleLeadNoNames.firma = none ∧ sampleLeadNoNames.vorname = none ∧
    sampleLeadNoNames.nachname = none ∧ specSearchNan.searchTerm = "nan" ∧
    df_filtered [sampleLeadNoNames] specSearchNan = [sampleLeadNoNames] := by
  decide

/-- C3 (amended): for a pattern free of regex metacharacters — where the
`re` pattern `str.contains` compiles matches exactly its literal
occurrences — a record passes the text search iff at least one of its
company, first-name, or last-name cells, coerced to text with a missing
cell rendered as "nan", contains the pattern as a case-insensitive
substring; the coercion means the search never fails on absent values, but
a missing field can match patterns contained in "nan".  (For
metacharacter patterns the search is regex matching, not substring
containment, and a malformed pattern raises; see C7.) -/
theorem c3_search_semantics (t : String) (r : Record)
    (_h : regexFree t = true) :
    searchMatch t r = true ↔
      (strLower t <:+: strLower (cellStr r.firma) ∨
       strLower t <:+: strLower (cellStr r.vorname) ∨
       strLower t <:+: strLower (cellStr r.nachname)) := by
  simp [searchMatch, containsCI, or_assoc]

theorem c3_search_semantics_witness :
    searchMatch "nan" sampleLeadNoNames = true ↔
      (strLower "nan" <:+: strLower (cellStr sampleLeadNoNames.firma) ∨
       strLower "nan" <:+: strLower (cellStr sampleLeadNoNames.vorname) ∨
       strLower "nan" <:+: strLower (cellStr sampleLeadNoNames.nachname)) :=
  c3_search_semantics "nan" sampleLeadNoNames (by decide)

/-- C9: a record whose company cell is missing is coerced to the text
"nan" by `astype(str)`, so it passes the text search for any pattern that
is a case-insensitive substring of "nan", instead of never matching. -/
theorem c9_missing_field_matches_nan (t : String) (r : Record)
    (h1 : r.firma = none) (h2 : strLower t <:+: strLower "nan") :
    searchMatch t r = true ∧ applySearch t [r] = [r] := by
  have hs : searchMatch t r = true := by
    unfold searchMatch containsCI
    rw [h1]
    simp [cellStr, h2]
  refine ⟨hs, ?_⟩
  unfold applySearch
  split
  · rfl
  · simp [hs]

theorem c9_missing_field_matches_nan_witness :
    searchMatch "nan" sampleLeadNoNames = true ∧
    applySearch "nan" [sampleLeadNoNames] = [sampleLeadNoNames] :=
  c9_missing_field_matches_nan "nan" sampleLeadNoNames rfl (by decide)

theorem c6_filtered_view_sublist_witness :
    List.Sublist (df_filtered [sampleLead] specEmptyVert) [sampleLead] ∧
    (df_filtered [sampleLead] specEmptyVert).length ≤
      ([sampleLead] : Dataset).length ∧
    sampleLead ∈ ([sampleLead] : Dataset) :=
  ⟨(c6_filtered_view_sublist [sampleLead] specEmptyVert).1,
   (c6_filtered_view_sublist [sampleLead] specEmptyVert).2.1,
   (c6_filtered_view_sublist [sampleLead] specEmptyVert).2.2 sampleLead
     (by decide)⟩

theorem sum_dedup_count (l : List String) :
    (l.dedup.map (fun v => l.count v)).sum = l.length := by
  have h := Multiset.toFinset_sum_count_eq (l : Multiset String)
  simpa [Finset.sum, Multiset.toFinset] using h

theorem filterMap_length_all_some (get : Record → Option String)
    (rows : Dataset) (h : ∀ r ∈ rows, (get r).isSome) :
    (rows.filterMap get).length = rows.length := by
  induction rows with
  | nil => rfl
  | cons a as ih =>
    obtain ⟨v, hv⟩ := Option.isSome_iff_exists.mp (h a (by simp))
    rw [List.filterMap_cons, hv]
    simp [ih (fun r hr => h r (by simp [hr]))]

/-- C4 counterexample: a filtered view containing one record whose
`Vertikal` cell is missing has total 1, but the `Vertikal` breakdown sums
to 0, because `value_counts()` drops missing cells. -/
theorem c4_counterexample :
    total_leads (df_filtered [sampleLeadNoVert] specAllEmpty) = 1 ∧
    ((value_counts (fun r => r.vertikal)
        (df_filtered [sampleLeadNoVert] specAllEmpty)).map Prod.snd).sum =
      0 := by
  decide

/-- C4 (amended): for every dimension, the sum of the breakdown counts
over the FilteredView equals the number of records in the view whose value
for that dimension is present; when no record in the view has a missing
value there, it equals `total_leads`. -/
theorem c4_breakdown_sum (get : Record → Option String) (D : Dataset)
    (F : FilterSpec) :
    ((value_counts get (df_filtered D F)).map Prod.snd).sum =
      ((df_filtered D F).filterMap get).length ∧
    ((∀ r ∈ df_filtered D F, (get r).isSome) →
      ((value_counts get (df_filtered D F)).map Prod.snd).sum =
        total_leads (df_filtered D F)) := by
  have hsum : ∀ rows : Dataset,
      ((value_counts get rows).map Prod.snd).sum =
        (rows.filterMap get).length := by
    intro rows
    unfold value_counts
    rw [List.map_map]
    have hc : (Prod.snd ∘ fun v => (v, (rows.filterMap get).count v)) =
        fun v => (rows.filterMap get).count v := rfl
    rw [hc]
    exact sum_dedup_count _
  refine ⟨hsum _, fun h => ?_⟩
  rw [hsum _, total_leads, filterMap_length_all_some get _ h]

theorem c4_breakdown_sum_witness :
    ((value_counts (fun r => r.vertikal)
        (df_filtered [sampleLead] specEmptyVert)).map Prod.snd).sum =
      ((df_filtered [sampleLead] specEmptyVert).filterMap
        (fun r => r.vertikal)).length ∧
    ((value_counts (fun r => r.vertikal)
        (df_filtered [sampleLead] specEmptyVert)).map Prod.snd).sum =
      total_leads (df_filtered [sampleLead] specEmptyVert) :=
  ⟨(c4_breakdown_sum (fun r => r.vertikal) [sampleLead] specEmptyVert).1,
   (c4_breakdown_sum (fun r => r.vertikal) [sampleLead] specEmptyVert).2
     (by decide)⟩

/-- C7 counterexample: the Engine is not total over its documented domain.
The search term "(" is in the documented domain (an arbitrary search
string), the five multiselect stages cannot reject it, and `str.contains`
compiles it with `re` before examining any row — `re.compile('(')` raises
`re.error` (unmatched parenthesis), so filtering ends in an error, not a
FilteredView. -/
theorem c7_counterexample :
    df_filteredE [sampleLead] specBadRegex = Except.error "re.error" := by
  rfl

/-- C7 (amended): the Engine never raises except when a non-empty search
term fails regex compilation.  For every FilterSpec whose search term is
empty or free of regex metacharacters (hence compiles), filtering runs to
completion with a non-error result equal to the total pipeline's view; an
empty Dataset yields an empty view; and a zero-match view is a normal
result with total 0, all four tier counts 0, and empty breakdowns for
every dimension. -/
theorem c7_engine_total_valid_pattern (D : Dataset) (F : FilterSpec)
    (h : F.searchTerm = "" ∨ regexFree F.searchTerm = true) :
    df_filteredE D F = Except.ok (df_filtered D F) ∧
    df_filteredE ([] : Dataset) F = Except.ok [] ∧
    (df_filtered D F = [] →
      total_leads (df_filtered D F) = 0 ∧
      leads_a (df_filtered D F) = 0 ∧
      leads_b (df_filtered D F) = 0 ∧
      leads_c (df_filtered D F) = 0 ∧
      leads_unscored (df_filtered D F) = 0 ∧
      value_counts (fun r => r.vertikal) (df_filtered D F) = [] ∧
      value_counts (fun r => r.rep) (df_filtered D F) = [] ∧
      value_counts (fun r => r.eventOutcome) (df_filtered D F) = [] ∧
      value_counts (fun r => r.scoring) (df_filtered D F) = []) := by
  refine ⟨?_, ?_, ?_⟩
  · unfold df_filteredE df_filtered
    exact searchStageE_ok _ _ h
  · unfold df_filteredE
    rw [searchStageE_ok _ _ h]
    simp [filterDim, applySearch]
  · intro h'
    rw [h']
    decide

theorem c7_engine_total_valid_pattern_witness :
    df_filteredE [sampleLead] specNoMatch =
      Except.ok (df_filtered [sampleLead] specNoMatch) ∧
    df_filteredE ([] : Dataset) specNoMatch = Except.ok [] ∧
    (total_leads (df_filtered [sampleLead] specNoMatch) = 0 ∧
      leads_a (df_filtered [sampleLead] specNoMatch) = 0 ∧
      leads_b (df_filtered [sampleLead] specNoMatch) = 0 ∧
      leads_c (df_filtered [sampleLead] specNoMatch) = 0 ∧
      leads_unscored (df_filtered [sampleLead] specNoMatch) = 0 ∧
      value_counts (fun r => r.vertikal)
        (df_filtered [sampleLead] specNoMatch) = [] ∧
      value_counts (fun r => r.rep)
        (df_filtered [sampleLead] specNoMatch) = [] ∧
      value_counts (fun r => r.eventOutcome)
        (df_filtered [sampleLead] specNoMatch) = [] ∧
      value_counts (fun r => r.scoring)
        (df_filtered [sampleLead] specNoMatch) = []) :=
  ⟨(c7_engine_total_valid_pattern [sampleLead] specNoMatch (Or.inl rfl)).1,
   (c7_engine_total_valid_pattern [sampleLead] specNoMatch (Or.inl rfl)).2.1,
   (c7_engine_total_valid_pattern [sampleLead] specNoMatch (Or.inl rfl)).2.2
     (by decide)⟩

/-! ### Loader failure model (dashboard.py lines 27-32 and 82-85)

`load_data` wraps its body in `try/except`: any raised load error is
reported with `st.error` and the function returns `None`.  The host then
substitutes an empty dataframe for `df_filtered` when `df is None`. -/

/-- The exceptions `load_data` catches (dashboard.py lines 27-32). -/
inductive LoadError where
  | fileNotFound : LoadError
  | otherException : String → LoadError
deriving Repr, DecidableEq

/-- `load_data` including its `try/except` wrapper: a raw read that raises
is caught and turned into the typed absent result `none`; a successful
read is cleaned and returned. -/
def load_dataResult (raw : Except LoadError Dataset) : Option Dataset :=
  match raw with
  | Except.ok rows => some (load_data rows)
  | Except.error _ => none

/-- The host-side guard (dashboard.py lines 82-85): when the Dataset is
absent, `df_filtered` is an empty dataframe instead of the pipeline
output. -/
def df_filteredOrEmpty (d : Option Dataset) (F : FilterSpec) : Dataset :=
  match d with
  | none => []
  | some df => df_filtered df F

/-- C8: a failing load yields the typed absent result `none` rather than
an uncaught exception, and an absent Dataset makes the pipeline treat the
FilteredView as the empty record set. -/
theorem c8_load_failure_graceful (e : LoadError) (F : FilterSpec) :
    load_dataResult (Except.error e) = none ∧
    df_filteredOrEmpty none F = [] ∧
    df_filteredOrEmpty (load_dataResult (Except.error e)) F = [] :=
  ⟨rfl, rfl, rfl⟩

/-! ### Dynamic-column model (dashboard.py lines 22-23 and 41-45)

The option-list computation indexes five columns without guarding for
their presence, while the loader's cleaning step is guarded by
`if 'Scoring' in df.columns`.  To state this, a dataframe is modelled with
its column list explicit and column access as a fallible lookup. -/

/-- A dataframe with explicit header: the column names and the rows as
association lists from column name to cell. -/
structure Frame where
  cols : List String
  rows : List (List (String × Option String))
deriving Repr, DecidableEq

/-- `df[c]`: the column's cells, or a `KeyError` carrying the missing
name. -/
def getColumn (df : Frame) (c : String) :
    Except String (List (Option String)) :=
  if df.cols.contains c then
    Except.ok (df.rows.map (fun r => (r.lookup c).join))
  else Except.error c

/-- The loader's cleaning step on a dynamic frame (dashboard.py lines
22-23): guarded by `if 'Scoring' in df.columns`, so a frame without the
column is returned unchanged rather than raising. -/
def load_cleanFrame (df : Frame) : Frame :=
  if df.cols.contains "Scoring" then
    { df with
      rows := df.rows.map (fun r => r.map (fun kv =>
        if kv.1 = "Scoring" then (kv.1, cleanScoring kv.2) else kv)) }
  else df

/-- `sorted(cells.dropna().unique())` on one column's cells. -/
def columnOptions (cells : List (Option String)) : List String :=
  sortStrings ((cells.filterMap id).dedup)

/-- The five option-list computations (dashboard.py lines 41-45), each an
unguarded column access, in source order; the first missing column
raises. -/
def computeOptionLists (df : Frame) :
    Except String (List (List String)) :=
  match getColumn df "Scoring" with
  | Except.error c => Except.error c
  | Except.ok s =>
    match getColumn df "Vertikal" with
    | Except.error c => Except.error c
    | Except.ok v =>
      match getColumn df "Follow up" with
      | Except.error c => Except.error c
      | Except.ok f =>
        match getColumn df "Rep" with
        | Except.error c => Except.error c
        | Except.ok rp =>
          match getColumn df "Event Outcome" with
          | Except.error c => Except.error c
          | Except.ok o =>
            Except.ok [columnOptions s, columnOptions v, columnOptions f,
              columnOptions rp, columnOptions o]

/-- A frame whose header has none of the five dimension columns. -/
def frameRepless : Frame := ⟨["Firma"], []⟩

theorem load_cleanFrame_cols (df : Frame) :
    (load_cleanFrame df).cols = df.cols := by
  unfold load_cleanFrame
  split <;> rfl

theorem computeOptionLists_ok_columns (df : Frame) (v : List (List String))
    (hok : computeOptionLists df = Except.ok v) :
    df.cols.contains "Scoring" = true ∧
    df.cols.contains "Vertikal" = true ∧
    df.cols.contains "Follow up" = true ∧
    df.cols.contains "Rep" = true ∧
    df.cols.contains "Event Outcome" = true := by
  unfold computeOptionLists getColumn at hok
  by_cases h1 : df.cols.contains "Scoring" <;>
  by_cases h2 : df.cols.contains "Vertikal" <;>
  by_cases h3 : df.cols.contains "Follow up" <;>
  by_cases h4 : df.cols.contains "Rep" <;>
  by_cases h5 : df.cols.contains "Event Outcome" <;>
  simp_all

/-- C10: when the loaded frame's header lacks any one of the five
dimension columns, the option-list computation ends in a `KeyError`
result, while the loader's score-tier cleaning is guarded: a frame without
the `Scoring` column passes through it unchanged. -/
theorem c10_missing_column_raises (df : Frame) (c : String)
    (hc : c ∈ (["Scoring", "Vertikal", "Follow up", "Rep",
      "Event Outcome"] : List String))
    (hmiss : c ∉ df.cols) :
    (∃ e, computeOptionLists (load_cleanFrame df) = Except.error e) ∧
    ("Scoring" ∉ df.cols → load_cleanFrame df = df) := by
  constructor
  · cases hres : computeOptionLists (load_cleanFrame df) with
    | error e => exact ⟨e, rfl⟩
    | ok v =>
      exfalso
      have hcols := computeOptionLists_ok_columns _ v hres
      rw [load_cleanFrame_cols] at hcols
      obtain ⟨k1, k2, k3, k4, k5⟩ := hcols
      simp at k1 k2 k3 k4 k5
      apply hmiss
      fin_cases hc <;> assumption
  · intro hs
    unfold load_cleanFrame
    rw [if_neg (by simpa using hs)]

theorem c10_missing_column_raises_witness :
    (∃ e, computeOptionLists (load_cleanFrame frameRepless) =
      Except.error e) ∧
    load_cleanFrame frameRepless = frameRepless :=
  ⟨(c10_missing_column_raises frameRepless "Vertikal" (by decide)
      (by decide)).1,
   (c10_missing_column_raises frameRepless "Vertikal" (by decide)
      (by decide)).2 (by decide)⟩

end Dashboard
